import Mathlib

/-!
Shallow embedding of the RoamGenie admin dashboard (src/app.py and
src/db_utils.py) and proofs about its login gate, navigation dispatch,
and data-access layer.
-/

namespace AdminDashboard

/-! ### Credential table and login check (src/app.py, lines 65-73) -/

/-- The hard-coded credential dictionary ADMIN_CREDENTIALS of app.py,
as an association list from username to password. -/
def ADMIN_CREDENTIALS : List (String × String) :=
  [("admin", "admin@123"), ("manager", "manager@123"), ("Webisdom", "admin@123")]

/-- Embeds check_admin_credentials of app.py: membership test in the
credential dictionary followed by comparison of the stored password. -/
def check_admin_credentials (username password : String) : Bool :=
  match ADMIN_CREDENTIALS.lookup username with
  | some stored => stored == password
  | none => false

end AdminDashboard

namespace AdminDashboard

/-- Claim C1: check_admin_credentials returns true exactly on the three
hard-coded username/password pairs and false on every other pair. -/
theorem check_admin_credentials_iff (username password : String) :
    check_admin_credentials username password = true ↔
      ((username = "admin" ∧ password = "admin@123") ∨
       (username = "manager" ∧ password = "manager@123") ∨
       (username = "Webisdom" ∧ password = "admin@123")) := by
  by_cases h1 : username = "admin"
  · subst h1
    simp [check_admin_credentials, ADMIN_CREDENTIALS, List.lookup]
    exact eq_comm
  · by_cases h2 : username = "manager"
    · subst h2
      simp [check_admin_credentials, ADMIN_CREDENTIALS, List.lookup]
      exact eq_comm
    · by_cases h3 : username = "Webisdom"
      · subst h3
        simp [check_admin_credentials, ADMIN_CREDENTIALS, List.lookup]
        exact eq_comm
      · have e1 : (username == "admin") = false := beq_eq_false_iff_ne.mpr h1
        have e2 : (username == "manager") = false := beq_eq_false_iff_ne.mpr h2
        have e3 : (username == "Webisdom") = false := beq_eq_false_iff_ne.mpr h3
        simp [check_admin_credentials, ADMIN_CREDENTIALS, List.lookup, e1, e2, e3, h1, h2, h3]

end AdminDashboard

namespace AdminDashboard

/-! ### Streamlit session and page model (src/app.py) -/

/-- The piece of st.session_state that app.py reads and writes:
the admin_logged_in flag and the admin_username string. -/
structure SessionState where
  adminLoggedIn : Bool
  adminUsername : String
deriving DecidableEq

/-- The widget inputs of one script run: the login form submission with
its username and password fields, the sidebar logout button, and the
sidebar radio selection. -/
structure AppInput where
  loginSubmitted : Bool
  username : String
  password : String
  logoutClicked : Bool
  radioChoice : String
deriving DecidableEq

/-- The five dashboard sections that main of app.py can render. -/
inductive AppSection
  | overview
  | analytics
  | customers
  | flights
  | system
deriving DecidableEq

/-- How a call to admin_login ends: a normal return carrying a Bool, or
st.rerun, which raises a rerun exception so the call never returns. -/
inductive LoginOutcome
  | returns (b : Bool)
  | rerun
deriving DecidableEq

/-- Embeds admin_login of app.py: when not logged in it renders the login
form; a submitted form with valid credentials sets admin_logged_in and
admin_username and reruns, otherwise the function returns False. When
logged in, the logout button clears the flag and reruns, otherwise the
function returns True. -/
def admin_login (s : SessionState) (inp : AppInput) :
    SessionState × LoginOutcome :=
  if !s.adminLoggedIn then
    if inp.loginSubmitted then
      if check_admin_credentials inp.username inp.password then
        ({ adminLoggedIn := true, adminUsername := inp.username },
         LoginOutcome.rerun)
      else (s, LoginOutcome.returns false)
    else (s, LoginOutcome.returns false)
  else
    if inp.logoutClicked then
      ({ s with adminLoggedIn := false }, LoginOutcome.rerun)
    else (s, LoginOutcome.returns true)

/-- The five sidebar radio options of main, exactly as written in app.py. -/
def radioOptions : List String :=
  ["📊 Overview & Metrics",
   "📈 Analytics & Charts",
   "👥 Customer Management",
   "✈️ Flight Management",
   "🔧 System Management"]

/-- Embeds the if/elif dispatch at the end of main of app.py: the list of
sections rendered for a given radio value. -/
def dispatchSection (choice : String) : List AppSection :=
  if choice = "📊 Overview & Metrics" then [AppSection.overview]
  else if choice = "📈 Analytics & Charts" then [AppSection.analytics]
  else if choice = "👥 Customer Management" then [AppSection.customers]
  else if choice = "✈️ Flight Management" then [AppSection.flights]
  else if choice = "🔧 System Management" then [AppSection.system]
  else []

/-- Embeds one run of main of app.py: call admin_login; on a rerun the
script run aborts with nothing rendered, on a False return main returns
before the navigation sidebar, and on a True return main renders the
section dispatched from the radio choice. Returns the final session
state and the list of sections rendered during this run. -/
def mainRun (s : SessionState) (inp : AppInput) :
    SessionState × List AppSection :=
  match admin_login s inp with
  | (s2, LoginOutcome.rerun) => (s2, [])
  | (s2, LoginOutcome.returns false) => (s2, [])
  | (s2, LoginOutcome.returns true) => (s2, dispatchSection inp.radioChoice)

end AdminDashboard

namespace AdminDashboard

/-- Claim C2: in every session state with admin_logged_in False,
admin_login never returns True (any normal return is False), and the run
of main renders no dashboard section. -/
theorem login_gate (s : SessionState) (inp : AppInput)
    (h : s.adminLoggedIn = false) :
    (admin_login s inp).2 ≠ LoginOutcome.returns true ∧
    (∀ b, (admin_login s inp).2 = LoginOutcome.returns b → b = false) ∧
    (mainRun s inp).2 = [] := by
  unfold mainRun admin_login
  rw [h]
  by_cases hs : inp.loginSubmitted = true
  · by_cases hc : check_admin_credentials inp.username inp.password = true
    · simp [hs, hc]
    · simp [hs, hc]
  · simp [hs]

/-- Witness for login_gate at a concrete logged-out state and input. -/
theorem login_gate_witness :
    (SessionState.mk false "").adminLoggedIn = false ∧
    (mainRun (SessionState.mk false "")
      (AppInput.mk false "" "" false "📊 Overview & Metrics")).2 = [] :=
  ⟨rfl, (login_gate (SessionState.mk false "")
    (AppInput.mk false "" "" false "📊 Overview & Metrics") rfl).2.2⟩

end AdminDashboard

namespace AdminDashboard

/-- Claim C6: when logged in and not logging out, each of the five radio
options renders exactly its own section and nothing else, and every radio
value from the option list takes exactly one dispatch branch, rendering
exactly one section. -/
theorem dispatch_exclusive (s : SessionState) (inp : AppInput)
    (hlog : s.adminLoggedIn = true) (hout : inp.logoutClicked = false) :
    (inp.radioChoice = "📊 Overview & Metrics" →
      (mainRun s inp).2 = [AppSection.overview]) ∧
    (inp.radioChoice = "📈 Analytics & Charts" →
      (mainRun s inp).2 = [AppSection.analytics]) ∧
    (inp.radioChoice = "👥 Customer Management" →
      (mainRun s inp).2 = [AppSection.customers]) ∧
    (inp.radioChoice = "✈️ Flight Management" →
      (mainRun s inp).2 = [AppSection.flights]) ∧
    (inp.radioChoice = "🔧 System Management" →
      (mainRun s inp).2 = [AppSection.system]) ∧
    (inp.radioChoice ∈ radioOptions → (mainRun s inp).2.length = 1) := by
  have hrun : (mainRun s inp).2 = dispatchSection inp.radioChoice := by
    unfold mainRun admin_login
    rw [hlog, hout]
    simp
  refine ⟨?_, ?_, ?_, ?_, ?_, ?_⟩
  · intro hc; rw [hrun, hc]; rfl
  · intro hc; rw [hrun, hc]; rfl
  · intro hc; rw [hrun, hc]; rfl
  · intro hc; rw [hrun, hc]; rfl
  · intro hc; rw [hrun, hc]; rfl
  · intro hc
    rw [hrun]
    simp only [radioOptions, List.mem_cons, List.not_mem_nil, or_false] at hc
    rcases hc with hc | hc | hc | hc | hc <;> rw [hc] <;> rfl

/-- Witness for dispatch_exclusive at a concrete logged-in state with the
fourth radio option selected. -/
theorem dispatch_exclusive_witness :
    (mainRun (SessionState.mk true "admin")
      (AppInput.mk false "" "" false "✈️ Flight Management")).2 =
      [AppSection.flights] :=
  (dispatch_exclusive (SessionState.mk true "admin")
    (AppInput.mk false "" "" false "✈️ Flight Management") rfl rfl).2.2.2.1 rfl

end AdminDashboard

namespace AdminDashboard

/-! ### Connection/statement trace model of db_utils (src/db_utils.py)

Each data-access function is modelled by the sequence of connection and
SQL actions it performs during one completed call: opening the
connection, executing statements, committing or rolling back, and
closing the connection. Branch points in the source (the IntegrityError
handler of log_enhanced_contact, the table list and the caught query
failures of get_database_info and get_admin_summary_stats) are resolved
by an explicit execution environment. -/

/-- The kind of a SQL statement issued by db_utils. -/
inductive SqlKind
  | select
  | insert
  | createTable
  | update
deriving DecidableEq

/-- One SQL statement: its kind and the table it addresses. -/
structure SqlStmt where
  kind : SqlKind
  table : String
deriving DecidableEq

/-- One observable action on the database connection. -/
inductive DbAction
  | openConn
  | exec (stmt : SqlStmt)
  | commit
  | rollback
  | closeConn
deriving DecidableEq

/-- Resolution of the run-time branch points of db_utils: whether the
insert of log_enhanced_contact hits the unique-email IntegrityError,
the table list returned by the information_schema query of
get_database_info, and, for the two functions whose query exceptions are
caught in a surrounding try, after how many successful statements a
query raises (none means no query fails). -/
structure ExecEnv where
  integrityError : Bool
  infoTables : List String
  statsFailAfter : Option Nat
  infoFailAfter : Option Nat
deriving DecidableEq

/-- An environment in which every branch takes its default path. -/
def defaultEnv : ExecEnv :=
  { integrityError := false, infoTables := [], statsFailAfter := none,
    infoFailAfter := none }

/-- Statements attempted inside a try block: all of them when no query
fails, otherwise the successful prefix plus the failing statement. -/
def tryBody (stmts : List SqlStmt) (failAfter : Option Nat) : List SqlStmt :=
  match failAfter with
  | none => stmts
  | some k => stmts.take (k + 1)

/-- The data-access functions of db_utils that open a connection
themselves (initialize_admin_system and backup_database only delegate
or touch no connection, so they are not listed). -/
inductive DbFun
  | init_db
  | log_flight_search
  | log_event
  | get_total_searches_count
  | get_top_destinations
  | get_top_departures
  | get_searches_over_time
  | fetch_recent_searches
  | fetch_contacts
  | get_recent_searches_count
  | get_average_trip_duration
  | get_budget_distribution
  | get_class_distribution
  | get_monthly_searches
  | get_weekly_growth_rate
  | fetch_all_searches
  | generate_analytics_summary
  | log_enhanced_flight_search
  | log_enhanced_contact
  | get_flight_analytics
  | get_admin_summary_stats
  | get_database_info
deriving DecidableEq

/-- The six statements inside the try block of get_admin_summary_stats,
in source order. -/
def statsStmts : List SqlStmt :=
  [SqlStmt.mk SqlKind.select "flight_searches",
   SqlStmt.mk SqlKind.select "contacts",
   SqlStmt.mk SqlKind.select "flight_searches",
   SqlStmt.mk SqlKind.select "contacts",
   SqlStmt.mk SqlKind.select "flight_searches",
   SqlStmt.mk SqlKind.select "flight_searches"]

/-- The statements inside the try block of get_database_info: the
information_schema table listing, one COUNT per reported table, and the
database-size query. -/
def infoStmts (tables : List String) : List SqlStmt :=
  SqlStmt.mk SqlKind.select "information_schema.tables" ::
    (tables.map (fun t => SqlStmt.mk SqlKind.select t) ++
      [SqlStmt.mk SqlKind.select "pg_database_size"])

/-- The action trace of one completed call of each db_utils function,
read off the source body in statement order. -/
def dbTrace (f : DbFun) (env : ExecEnv) : List DbAction :=
  match f with
  | DbFun.init_db =>
      [DbAction.openConn,
       DbAction.exec (SqlStmt.mk SqlKind.createTable "flight_searches"),
       DbAction.exec (SqlStmt.mk SqlKind.createTable "contacts"),
       DbAction.exec (SqlStmt.mk SqlKind.createTable "events"),
       DbAction.exec (SqlStmt.mk SqlKind.createTable "system_metrics"),
       DbAction.commit, DbAction.closeConn]
  | DbFun.log_flight_search =>
      [DbAction.openConn,
       DbAction.exec (SqlStmt.mk SqlKind.insert "flight_searches"),
       DbAction.commit, DbAction.closeConn]
  | DbFun.log_event =>
      [DbAction.openConn, DbAction.exec (SqlStmt.mk SqlKind.insert "events"),
       DbAction.commit, DbAction.closeConn]
  | DbFun.get_total_searches_count =>
      [DbAction.openConn,
       DbAction.exec (SqlStmt.mk SqlKind.select "flight_searches"),
       DbAction.closeConn]
  | DbFun.get_top_destinations =>
      [DbAction.openConn,
       DbAction.exec (SqlStmt.mk SqlKind.select "flight_searches"),
       DbAction.closeConn]
  | DbFun.get_top_departures =>
      [DbAction.openConn,
       DbAction.exec (SqlStmt.mk SqlKind.select "flight_searches"),
       DbAction.closeConn]
  | DbFun.get_searches_over_time =>
      [DbAction.openConn,
       DbAction.exec (SqlStmt.mk SqlKind.select "flight_searches"),
       DbAction.closeConn]
  | DbFun.fetch_recent_searches =>
      [DbAction.openConn,
       DbAction.exec (SqlStmt.mk SqlKind.select "flight_searches"),
       DbAction.closeConn]
  | DbFun.fetch_contacts =>
      [DbAction.openConn, DbAction.exec (SqlStmt.mk SqlKind.select "contacts"),
       DbAction.closeConn]
  | DbFun.get_recent_searches_count =>
      [DbAction.openConn,
       DbAction.exec (SqlStmt.mk SqlKind.select "flight_searches"),
       DbAction.closeConn]
  | DbFun.get_average_trip_duration =>
      [DbAction.openConn,
       DbAction.exec (SqlStmt.mk SqlKind.select "flight_searches"),
       DbAction.closeConn]
  | DbFun.get_budget_distribution =>
      [DbAction.openConn,
       DbAction.exec (SqlStmt.mk SqlKind.select "flight_searches"),
       DbAction.closeConn]
  | DbFun.get_class_distribution =>
      [DbAction.openConn,
       DbAction.exec (SqlStmt.mk SqlKind.select "flight_searches"),
       DbAction.closeConn]
  | DbFun.get_monthly_searches =>
      [DbAction.openConn,
       DbAction.exec (SqlStmt.mk SqlKind.select "flight_searches"),
       DbAction.closeConn]
  | DbFun.get_weekly_growth_rate =>
      [DbAction.openConn,
       DbAction.exec (SqlStmt.mk SqlKind.select "flight_searches"),
       DbAction.exec (SqlStmt.mk SqlKind.select "flight_searches"),
       DbAction.closeConn]
  | DbFun.fetch_all_searches =>
      [DbAction.openConn,
       DbAction.exec (SqlStmt.mk SqlKind.select "flight_searches"),
       DbAction.closeConn]
  | DbFun.generate_analytics_summary =>
      [DbAction.openConn,
       DbAction.exec (SqlStmt.mk SqlKind.select "flight_searches"),
       DbAction.exec (SqlStmt.mk SqlKind.select "contacts"),
       DbAction.exec (SqlStmt.mk SqlKind.select "flight_searches"),
       DbAction.exec (SqlStmt.mk SqlKind.select "flight_searches"),
       DbAction.exec (SqlStmt.mk SqlKind.select "flight_searches"),
       DbAction.exec (SqlStmt.mk SqlKind.select "flight_searches"),
       DbAction.closeConn]
  | DbFun.log_enhanced_flight_search =>
      [DbAction.openConn,
       DbAction.exec (SqlStmt.mk SqlKind.insert "flight_searches"),
       DbAction.commit, DbAction.closeConn]
  | DbFun.log_enhanced_contact =>
      if env.integrityError then
        [DbAction.openConn, DbAction.exec (SqlStmt.mk SqlKind.insert "contacts"),
         DbAction.rollback, DbAction.exec (SqlStmt.mk SqlKind.update "contacts"),
         DbAction.commit, DbAction.closeConn]
      else
        [DbAction.openConn, DbAction.exec (SqlStmt.mk SqlKind.insert "contacts"),
         DbAction.commit, DbAction.closeConn]
  | DbFun.get_flight_analytics =>
      [DbAction.openConn,
       DbAction.exec (SqlStmt.mk SqlKind.select "flight_searches"),
       DbAction.closeConn]
  | DbFun.get_admin_summary_stats =>
      DbAction.openConn ::
        ((tryBody statsStmts env.statsFailAfter).map DbAction.exec ++
          [DbAction.closeConn])
  | DbFun.get_database_info =>
      DbAction.openConn ::
        ((tryBody (infoStmts env.infoTables) env.infoFailAfter).map
            DbAction.exec ++ [DbAction.closeConn])

/-- The SQL statements executed along a trace, in order. -/
def execStmts (t : List DbAction) : List SqlStmt :=
  t.filterMap fun a =>
    match a with
    | DbAction.exec s => some s
    | _ => none

/-- The number of SQL statements executed along a trace. -/
def execCount (t : List DbAction) : Nat := (execStmts t).length

/-- A trace is well formed when it opens the connection first, closes it
last, opens and closes exactly once, and executes at least one SQL
statement in between. -/
def wellFormedTrace (t : List DbAction) : Prop :=
  t.head? = some DbAction.openConn ∧
  t.getLast? = some DbAction.closeConn ∧
  (t.filter (fun a => a == DbAction.openConn)).length = 1 ∧
  (t.filter (fun a => a == DbAction.closeConn)).length = 1 ∧
  1 ≤ execCount t

instance (t : List DbAction) : Decidable (wellFormedTrace t) := by
  unfold wellFormedTrace
  infer_instance

end AdminDashboard

namespace AdminDashboard

/-- Mapping statements into exec actions and reading them back is the
identity. -/
theorem execStmts_map_exec (l : List SqlStmt) :
    execStmts (l.map DbAction.exec) = l := by
  induction l with
  | nil => rfl
  | cons a l ih => simpa [execStmts, List.filterMap_cons] using ih

/-- Executed statements of a trace of the shape open, executions, close. -/
theorem execStmts_shape (l : List SqlStmt) :
    execStmts (DbAction.openConn ::
      (l.map DbAction.exec ++ [DbAction.closeConn])) = l := by
  calc execStmts (DbAction.openConn ::
        (l.map DbAction.exec ++ [DbAction.closeConn]))
      = execStmts (l.map DbAction.exec ++ [DbAction.closeConn]) := by
        simp [execStmts, List.filterMap_cons]
    _ = execStmts (l.map DbAction.exec) ++ execStmts [DbAction.closeConn] := by
        simp [execStmts, List.filterMap_append]
    _ = l := by
        rw [execStmts_map_exec, show execStmts [DbAction.closeConn] = []
          from rfl, List.append_nil]

/-- The statements attempted inside a try block all come from its body. -/
theorem tryBody_subset (stmts : List SqlStmt) (fa : Option Nat) :
    tryBody stmts fa ⊆ stmts := by
  cases fa with
  | none => exact fun a h => h
  | some k => exact List.take_subset _ _

/-- A try block over a nonempty body always attempts at least one
statement: even a failure of the first query counts as one execution. -/
theorem tryBody_length_pos (stmts : List SqlStmt) (fa : Option Nat)
    (h : stmts ≠ []) : 1 ≤ (tryBody stmts fa).length := by
  have hl : 0 < stmts.length := List.length_pos.mpr h
  cases fa with
  | none => simpa [tryBody] using hl
  | some k =>
    simp only [tryBody, List.length_take]
    omega

/-- Mapping statements into exec actions preserves the statement count. -/
theorem execCount_map_exec (l : List SqlStmt) :
    execCount (l.map DbAction.exec) = l.length := by
  rw [execCount, execStmts_map_exec]

/-- A trace of the shape open, middle, close is well formed whenever the
middle neither opens nor closes and contains at least one execution. -/
theorem wellFormed_shape (mid : List DbAction)
    (hopen : DbAction.openConn ∉ mid)
    (hclose : DbAction.closeConn ∉ mid)
    (hexec : 1 ≤ execCount mid) :
    wellFormedTrace (DbAction.openConn :: (mid ++ [DbAction.closeConn])) := by
  have hfo : mid.filter (fun a => a == DbAction.openConn) = [] := by
    rw [List.filter_eq_nil_iff]
    intro a ha
    simp only [beq_iff_eq]
    exact fun e => hopen (e ▸ ha)
  have hfc : mid.filter (fun a => a == DbAction.closeConn) = [] := by
    rw [List.filter_eq_nil_iff]
    intro a ha
    simp only [beq_iff_eq]
    exact fun e => hclose (e ▸ ha)
  refine ⟨rfl, ?_, ?_, ?_, ?_⟩
  · rw [show DbAction.openConn :: (mid ++ [DbAction.closeConn]) =
      (DbAction.openConn :: mid) ++ [DbAction.closeConn] from rfl]
    exact List.getLast?_concat _
  · simp [List.filter_cons, List.filter_append, hfo]
  · simp [List.filter_cons, List.filter_append, hfc]
  · simpa [execCount, execStmts, List.filterMap_cons,
      List.filterMap_append] using hexec

end AdminDashboard

namespace AdminDashboard

/-- The sentence of the spec formalized as stated: every data-access
function of db_utils executes exactly one SQL statement per call. -/
def oneQueryClaim : Prop :=
  ∀ (f : DbFun) (env : ExecEnv), execCount (dbTrace f env) = 1

/-- Claim C3 counterexample: get_weekly_growth_rate executes two SELECT
statements during one call, so the one-query-per-call claim is false. -/
theorem oneQueryClaim_false : ¬ oneQueryClaim := fun h =>
  absurd (h DbFun.get_weekly_growth_rate defaultEnv) (by decide)

/-- Claim C3 amended: every data-access function of db_utils opens a
connection first, closes it last, opens and closes exactly once, and
executes one or more SQL statements in between. -/
theorem dbTrace_wellFormed (f : DbFun) (env : ExecEnv) :
    wellFormedTrace (dbTrace f env) := by
  cases f
  case log_enhanced_contact =>
    rcases env with ⟨ie, it, sfa, ifa⟩
    cases ie <;> exact of_decide_eq_true rfl
  case get_admin_summary_stats =>
    refine wellFormed_shape _ ?_ ?_ ?_
    · simp
    · simp
    · rw [execCount_map_exec]
      exact tryBody_length_pos _ _ (by decide)
  case get_database_info =>
    refine wellFormed_shape _ ?_ ?_ ?_
    · simp
    · simp
    · rw [execCount_map_exec]
      exact tryBody_length_pos _ _ (by simp [infoStmts])
  all_goals exact of_decide_eq_true rfl

end AdminDashboard

namespace AdminDashboard

/-- Every statement in the try block of get_database_info is a SELECT,
whatever table list the information_schema query reports. -/
theorem infoStmts_kind (tables : List String) :
    ∀ s ∈ infoStmts tables, s.kind = SqlKind.select := by
  intro s hs
  simp only [infoStmts, List.mem_cons, List.mem_append, List.mem_map] at hs
  rcases hs with rfl | ⟨t, ht, rfl⟩ | rfl | h
  · rfl
  · rfl
  · rfl
  · cases h

/-- The sentence of the spec formalized as stated: every statement the
data-access layer executes is a SELECT or an INSERT. -/
def selectInsertOnlyClaim : Prop :=
  ∀ (f : DbFun) (env : ExecEnv), ∀ s ∈ execStmts (dbTrace f env),
    s.kind = SqlKind.select ∨ s.kind = SqlKind.insert

/-- Claim C4 counterexample: when the insert of log_enhanced_contact
fails with an IntegrityError, the handler executes a compensating
UPDATE, so the SELECT/INSERT-only claim is false. -/
theorem selectInsertOnlyClaim_false : ¬ selectInsertOnlyClaim := fun h =>
  absurd
    (h DbFun.log_enhanced_contact
      { integrityError := true, infoTables := [], statsFailAfter := none,
        infoFailAfter := none }
      (SqlStmt.mk SqlKind.update "contacts") (by decide))
    (by decide)

/-- Claim C4 amended: every statement the data-access layer executes is
a SELECT, an INSERT, or one of the CREATE TABLE statements of init_db,
except that log_enhanced_contact, and only it, reacts to a failed
insert by rolling back and executing a compensating UPDATE; rollback
happens nowhere else. -/
theorem stmt_kinds_amended (f : DbFun) (env : ExecEnv) :
    (∀ s ∈ execStmts (dbTrace f env),
      s.kind = SqlKind.select ∨ s.kind = SqlKind.insert ∨
        s.kind = SqlKind.createTable ∨
        (f = DbFun.log_enhanced_contact ∧ s.kind = SqlKind.update ∧
          env.integrityError = true)) ∧
    (DbAction.rollback ∈ dbTrace f env →
      f = DbFun.log_enhanced_contact ∧ env.integrityError = true) := by
  cases f
  case log_enhanced_contact =>
    rcases env with ⟨ie, it, sfa, ifa⟩
    cases ie <;> exact ⟨of_decide_eq_true rfl, of_decide_eq_true rfl⟩
  case get_admin_summary_stats =>
    constructor
    · intro s hs
      rw [show dbTrace DbFun.get_admin_summary_stats env =
            DbAction.openConn ::
              ((tryBody statsStmts env.statsFailAfter).map DbAction.exec ++
                [DbAction.closeConn]) from rfl, execStmts_shape] at hs
      have hmem : s ∈ statsStmts := tryBody_subset _ _ hs
      have hk : ∀ x ∈ statsStmts, x.kind = SqlKind.select := by decide
      exact Or.inl (hk s hmem)
    · intro hr
      rw [show dbTrace DbFun.get_admin_summary_stats env =
            DbAction.openConn ::
              ((tryBody statsStmts env.statsFailAfter).map DbAction.exec ++
                [DbAction.closeConn]) from rfl] at hr
      simp at hr
  case get_database_info =>
    constructor
    · intro s hs
      rw [show dbTrace DbFun.get_database_info env =
            DbAction.openConn ::
              ((tryBody (infoStmts env.infoTables) env.infoFailAfter).map
                  DbAction.exec ++ [DbAction.closeConn]) from rfl,
        execStmts_shape] at hs
      have hmem : s ∈ infoStmts env.infoTables := tryBody_subset _ _ hs
      exact Or.inl (infoStmts_kind env.infoTables s hmem)
    · intro hr
      rw [show dbTrace DbFun.get_database_info env =
            DbAction.openConn ::
              ((tryBody (infoStmts env.infoTables) env.infoFailAfter).map
                  DbAction.exec ++ [DbAction.closeConn]) from rfl] at hr
      simp at hr
  all_goals exact ⟨of_decide_eq_true rfl, of_decide_eq_true rfl⟩

/-- Witness for stmt_kinds_amended at init_db and the first CREATE TABLE
statement of its trace. -/
theorem stmt_kinds_amended_witness :
    (SqlStmt.mk SqlKind.createTable "flight_searches").kind = SqlKind.select ∨
    (SqlStmt.mk SqlKind.createTable "flight_searches").kind = SqlKind.insert ∨
    (SqlStmt.mk SqlKind.createTable "flight_searches").kind =
      SqlKind.createTable ∨
    (DbFun.init_db = DbFun.log_enhanced_contact ∧
      (SqlStmt.mk SqlKind.createTable "flight_searches").kind =
        SqlKind.update ∧
      defaultEnv.integrityError = true) :=
  (stmt_kinds_amended DbFun.init_db defaultEnv).1
    (SqlStmt.mk SqlKind.createTable "flight_searches") (by decide)

end AdminDashboard

namespace AdminDashboard

/-! ### init_db semantics over a table catalog (src/db_utils.py, init_db) -/

/-- Column text of the flight_searches table, from init_db. -/
def flightSearchesColumns : String :=
  "id SERIAL PRIMARY KEY, origin TEXT NOT NULL, destination TEXT NOT NULL, departure_date TEXT NOT NULL, return_date TEXT NOT NULL, duration_days INTEGER, budget_preference TEXT, flight_class TEXT, estimated_price DECIMAL(10,2), search_timestamp TIMESTAMP DEFAULT CURRENT_TIMESTAMP, created_at TIMESTAMP DEFAULT CURRENT_TIMESTAMP, user_session_id TEXT, search_status TEXT DEFAULT \x27completed\x27"

/-- Column text of the contacts table, from init_db. -/
def contactsColumns : String :=
  "id SERIAL PRIMARY KEY, firstName TEXT NOT NULL, secondName TEXT NOT NULL, email TEXT NOT NULL UNIQUE, phone TEXT, source TEXT DEFAULT \x27web_form\x27, created_at TIMESTAMP DEFAULT CURRENT_TIMESTAMP, last_interaction TIMESTAMP DEFAULT CURRENT_TIMESTAMP, status TEXT DEFAULT \x27active\x27, notes TEXT"

/-- Column text of the events table, from init_db. -/
def eventsColumns : String :=
  "id SERIAL PRIMARY KEY, event_type TEXT NOT NULL, event_data TEXT, user_identifier TEXT, created_at TIMESTAMP DEFAULT CURRENT_TIMESTAMP, ip_address TEXT, user_agent TEXT"

/-- Column text of the system_metrics table, from init_db. -/
def systemMetricsColumns : String :=
  "id SERIAL PRIMARY KEY, metric_name TEXT NOT NULL, metric_value DECIMAL(10,2) NOT NULL, metric_type TEXT DEFAULT \x27counter\x27, recorded_at TIMESTAMP DEFAULT CURRENT_TIMESTAMP, additional_data TEXT"

/-- One CREATE TABLE IF NOT EXISTS statement applied to a catalog that
maps each table name to its column text: an existing table is left
untouched, a missing one is created with the given columns. -/
def createTableIfNotExists (name schemaText : String)
    (db : String → Option String) : String → Option String :=
  fun n => if n = name then some ((db name).getD schemaText) else db n

/-- Embeds init_db of db_utils.py: its four CREATE TABLE IF NOT EXISTS
statements applied to the catalog in source order. -/
def init_db (db : String → Option String) : String → Option String :=
  createTableIfNotExists "system_metrics" systemMetricsColumns
    (createTableIfNotExists "events" eventsColumns
      (createTableIfNotExists "contacts" contactsColumns
        (createTableIfNotExists "flight_searches" flightSearchesColumns db)))

/-- The four tables init_db creates, in source order. -/
def initDbTableNames : List String :=
  ["flight_searches", "contacts", "events", "system_metrics"]

/-- CREATE TABLE IF NOT EXISTS keeps every existing table unchanged. -/
theorem createTableIfNotExists_preserve (name sch : String)
    (db : String → Option String) (t s : String) (h : db t = some s) :
    createTableIfNotExists name sch db t = some s := by
  unfold createTableIfNotExists
  by_cases ht : t = name
  · subst ht
    simp [h]
  · simp [ht, h]

/-- CREATE TABLE IF NOT EXISTS does not touch other table names. -/
theorem createTableIfNotExists_other (name sch : String)
    (db : String → Option String) (t : String) (h : t ≠ name) :
    createTableIfNotExists name sch db t = db t := by
  simp [createTableIfNotExists, h]

/-- After CREATE TABLE IF NOT EXISTS the named table exists. -/
theorem createTableIfNotExists_some (name sch : String)
    (db : String → Option String) :
    (createTableIfNotExists name sch db name).isSome = true := by
  unfold createTableIfNotExists
  cases h : db name <;> simp [h]

/-- CREATE TABLE IF NOT EXISTS never deletes a table. -/
theorem createTableIfNotExists_mono (name sch : String)
    (db : String → Option String) (t : String)
    (h : (db t).isSome = true) :
    (createTableIfNotExists name sch db t).isSome = true := by
  unfold createTableIfNotExists
  by_cases ht : t = name
  · subst ht
    cases hh : db t <;> simp [hh]
  · simp [ht, h]

end AdminDashboard

namespace AdminDashboard

/-- Claim C5: init_db issues CREATE TABLE IF NOT EXISTS for exactly the
four tables flight_searches, contacts, events, system_metrics and
commits; existing tables keep their column text, names outside the four
are untouched, and afterwards all four tables exist. -/
theorem init_db_spec (db : String → Option String) :
    (∀ t s, db t = some s → init_db db t = some s) ∧
    (∀ t, t ∉ initDbTableNames → init_db db t = db t) ∧
    (∀ t, t ∈ initDbTableNames → (init_db db t).isSome = true) ∧
    (∀ env : ExecEnv, execStmts (dbTrace DbFun.init_db env) =
      [SqlStmt.mk SqlKind.createTable "flight_searches",
       SqlStmt.mk SqlKind.createTable "contacts",
       SqlStmt.mk SqlKind.createTable "events",
       SqlStmt.mk SqlKind.createTable "system_metrics"]) ∧
    (∀ env : ExecEnv, DbAction.commit ∈ dbTrace DbFun.init_db env) := by
  refine ⟨?_, ?_, ?_, fun env => rfl, fun env => of_decide_eq_true rfl⟩
  · intro t s h
    unfold init_db
    exact createTableIfNotExists_preserve _ _ _ _ _
      (createTableIfNotExists_preserve _ _ _ _ _
        (createTableIfNotExists_preserve _ _ _ _ _
          (createTableIfNotExists_preserve _ _ _ _ _ h)))
  · intro t ht
    simp only [initDbTableNames, List.mem_cons, List.not_mem_nil, or_false,
      not_or] at ht
    obtain ⟨h1, h2, h3, h4⟩ := ht
    unfold init_db
    rw [createTableIfNotExists_other _ _ _ _ h4,
      createTableIfNotExists_other _ _ _ _ h3,
      createTableIfNotExists_other _ _ _ _ h2,
      createTableIfNotExists_other _ _ _ _ h1]
  · intro t ht
    simp only [initDbTableNames, List.mem_cons, List.not_mem_nil,
      or_false] at ht
    unfold init_db
    rcases ht with rfl | rfl | rfl | rfl
    · apply createTableIfNotExists_mono
      apply createTableIfNotExists_mono
      apply createTableIfNotExists_mono
      exact createTableIfNotExists_some _ _ _
    · apply createTableIfNotExists_mono
      apply createTableIfNotExists_mono
      exact createTableIfNotExists_some _ _ _
    · apply createTableIfNotExists_mono
      exact createTableIfNotExists_some _ _ _
    · exact createTableIfNotExists_some _ _ _

/-- A catalog holding only a contacts table, used as witness input. -/
def catalogW : String → Option String := fun t =>
  if t = "contacts" then some "legacy_columns" else none

/-- Witness for init_db_spec: a pre-existing contacts table keeps its
column text across init_db. -/
theorem init_db_spec_witness :
    init_db catalogW "contacts" = some "legacy_columns" :=
  (init_db_spec catalogW).1 "contacts" "legacy_columns" (by simp [catalogW])

end AdminDashboard

namespace AdminDashboard

/-! ### Row-level database model (src/db_utils.py)

Rows carry the columns the embedded queries read; timestamps are
integers counted in days, so CURRENT_DATE minus an INTERVAL of n days is
subtraction by n. -/

/-- One row of the flight_searches table. -/
structure FlightSearchRow where
  origin : String
  destination : String
  departureDate : String
  returnDate : String
  durationDays : Option Int
  budgetPreference : Option String
  flightClass : Option String
  estimatedPrice : Option Rat
  createdAt : Int
  userSessionId : Option String
  searchStatus : String
deriving DecidableEq

/-- One row of the contacts table. -/
structure ContactRow where
  firstName : String
  secondName : String
  email : String
  phone : String
  source : String
  createdAt : Int
  lastInteraction : Int
  status : String
  notes : Option String
deriving DecidableEq

/-- The database contents read and written by db_utils. -/
structure Database where
  flightSearches : List FlightSearchRow
  contacts : List ContactRow
deriving DecidableEq

/-- In-process mutable state a caching implementation would keep between
calls, for example a module-level memo table. db_utils defines no such
state, so the embedded query functions neither read nor write it. -/
structure ProcessState where
  data : List (String × String)
deriving DecidableEq

/-- Embeds get_total_searches_count: SELECT COUNT(star) FROM
flight_searches, threaded through the in-process state. -/
def get_total_searches_count (ps : ProcessState) (db : Database) :
    Nat × ProcessState :=
  (db.flightSearches.length, ps)

/-- Stable insertion into a list ordered by created_at descending. -/
def insertByCreatedAtDesc (r : FlightSearchRow) :
    List FlightSearchRow → List FlightSearchRow
  | [] => [r]
  | x :: xs =>
      if x.createdAt < r.createdAt then r :: x :: xs
      else x :: insertByCreatedAtDesc r xs

/-- ORDER BY created_at DESC over the flight_searches rows. -/
def sortByCreatedAtDesc (rows : List FlightSearchRow) :
    List FlightSearchRow :=
  rows.foldr insertByCreatedAtDesc []

/-- Embeds fetch_recent_searches: SELECT star FROM flight_searches ORDER
BY created_at DESC LIMIT limit, threaded through the in-process state. -/
def fetch_recent_searches (ps : ProcessState) (db : Database)
    (limit : Nat) : List FlightSearchRow × ProcessState :=
  ((sortByCreatedAtDesc db.flightSearches).take limit, ps)

end AdminDashboard

namespace AdminDashboard

/-- Claim C7: the read-only query functions keep no in-process state:
their results agree across arbitrary process states, the process state
comes back unchanged, and a repeated call against the same database
returns the same result. -/
theorem queries_stateless (ps1 ps2 : ProcessState) (db : Database)
    (limit : Nat) :
    (get_total_searches_count ps1 db).1 =
      (get_total_searches_count ps2 db).1 ∧
    (get_total_searches_count ps1 db).2 = ps1 ∧
    (fetch_recent_searches ps1 db limit).1 =
      (fetch_recent_searches ps2 db limit).1 ∧
    (fetch_recent_searches ps1 db limit).2 = ps1 ∧
    (get_total_searches_count (get_total_searches_count ps1 db).2 db).1 =
      (get_total_searches_count ps1 db).1 ∧
    (fetch_recent_searches (fetch_recent_searches ps1 db limit).2 db
        limit).1 =
      (fetch_recent_searches ps1 db limit).1 :=
  ⟨rfl, rfl, rfl, rfl, rfl, rfl⟩

end AdminDashboard

namespace AdminDashboard

/-! ### get_weekly_growth_rate (src/db_utils.py, lines 286-312) -/

/-- The first COUNT of get_weekly_growth_rate: searches with created_at
at or after CURRENT_DATE minus 7 days. -/
def thisWeekCount (db : Database) (currentDate : Int) : Nat :=
  (db.flightSearches.filter fun r =>
    decide (currentDate - 7 ≤ r.createdAt)).length

/-- The second COUNT of get_weekly_growth_rate: searches with created_at
at or after CURRENT_DATE minus 14 days and before CURRENT_DATE minus 7
days. -/
def lastWeekCount (db : Database) (currentDate : Int) : Nat :=
  (db.flightSearches.filter fun r =>
    decide (currentDate - 14 ≤ r.createdAt) &&
      decide (r.createdAt < currentDate - 7)).length

/-- Embeds get_weekly_growth_rate: the two weekly counts, a zero guard on
the last-week count, and the percentage formula. -/
def get_weekly_growth_rate (db : Database) (currentDate : Int) : Rat :=
  let this_week := thisWeekCount db currentDate
  let last_week := lastWeekCount db currentDate
  if last_week = 0 then 0
  else (((this_week : Rat) - (last_week : Rat)) / (last_week : Rat)) * 100

end AdminDashboard

namespace AdminDashboard

/-- Claim C8: get_weekly_growth_rate returns 0 when the last-week count
is 0, and otherwise divides by a provably nonzero denominator and
returns the growth percentage. -/
theorem weekly_growth_no_div_zero (db : Database) (currentDate : Int) :
    (lastWeekCount db currentDate = 0 →
      get_weekly_growth_rate db currentDate = 0) ∧
    (lastWeekCount db currentDate ≠ 0 →
      ((lastWeekCount db currentDate : Rat) ≠ 0 ∧
        get_weekly_growth_rate db currentDate =
          (((thisWeekCount db currentDate : Rat) -
              (lastWeekCount db currentDate : Rat)) /
            (lastWeekCount db currentDate : Rat)) * 100)) := by
  constructor
  · intro h
    simp [get_weekly_growth_rate, h]
  · intro h
    refine ⟨by exact_mod_cast h, ?_⟩
    simp [get_weekly_growth_rate, h]

/-- A flight search row used in witness databases. -/
def rowW : FlightSearchRow :=
  { origin := "DEL", destination := "BOM", departureDate := "2025-01-01",
    returnDate := "2025-01-05", durationDays := some 4,
    budgetPreference := some "Economy", flightClass := some "Economy",
    estimatedPrice := some 200, createdAt := 0, userSessionId := none,
    searchStatus := "completed" }

/-- A database whose only search falls in the current week. -/
def dbW : Database := { flightSearches := [rowW], contacts := [] }

/-- Witness for weekly_growth_no_div_zero: with an empty last week the
growth rate is 0. -/
theorem weekly_growth_no_div_zero_witness :
    get_weekly_growth_rate dbW 5 = 0 :=
  (weekly_growth_no_div_zero dbW 5).1 (by decide)

end AdminDashboard

namespace AdminDashboard

/-! ### log_enhanced_contact (src/db_utils.py, lines 423-447) -/

/-- Embeds log_enhanced_contact: INSERT a contact row with the given
fields, the source parameter, CURRENT_TIMESTAMP for created_at and
last_interaction, default status active and NULL notes, returning True;
when the unique email already exists the insert raises IntegrityError
and the handler rolls back and instead runs UPDATE contacts SET
firstName, secondName, phone, last_interaction WHERE email matches,
returning False. -/
def log_enhanced_contact (firstName secondName email phone source : String)
    (now : Int) (db : Database) : Bool × Database :=
  if db.contacts.any (fun c => c.email == email) then
    (false,
     { db with
        contacts := db.contacts.map fun c =>
          if c.email == email then
            { c with
                firstName := firstName
                secondName := secondName
                phone := phone
                lastInteraction := now }
          else c })
  else
    (true,
     { db with
        contacts := db.contacts ++
          [{ firstName := firstName, secondName := secondName,
             email := email, phone := phone, source := source,
             createdAt := now, lastInteraction := now, status := "active",
             notes := none }] })

end AdminDashboard

namespace AdminDashboard

/-- Claim C9: log_enhanced_contact returns True exactly when the email is
new, in which case exactly one row is appended with the given fields and
defaults; on a duplicate email it returns False and the matching row has
firstName, secondName, phone and last_interaction updated while email,
created_at, source, status and notes are unchanged, and all other rows
are untouched. -/
theorem log_enhanced_contact_spec (fn sn em ph src : String) (now : Int)
    (db : Database) :
    ((log_enhanced_contact fn sn em ph src now db).1 = true ↔
      ∀ c ∈ db.contacts, c.email ≠ em) ∧
    ((log_enhanced_contact fn sn em ph src now db).1 = true ↔
      (log_enhanced_contact fn sn em ph src now db).2.contacts.length =
        db.contacts.length + 1) ∧
    ((log_enhanced_contact fn sn em ph src now db).1 = true →
      (log_enhanced_contact fn sn em ph src now db).2.contacts =
        db.contacts ++
          [ContactRow.mk fn sn em ph src now now "active" none]) ∧
    ((log_enhanced_contact fn sn em ph src now db).1 = false →
      ((log_enhanced_contact fn sn em ph src now db).2.contacts.length =
          db.contacts.length ∧
       ∀ i : Nat, ∀ c, db.contacts[i]? = some c →
         ∃ c',
           (log_enhanced_contact fn sn em ph src now
               db).2.contacts[i]? = some c' ∧
           (c.email ≠ em → c' = c) ∧
           (c.email = em →
             c'.firstName = fn ∧ c'.secondName = sn ∧ c'.phone = ph ∧
             c'.lastInteraction = now ∧ c'.email = c.email ∧
             c'.createdAt = c.createdAt ∧ c'.source = c.source ∧
             c'.status = c.status ∧ c'.notes = c.notes))) := by
  by_cases h : db.contacts.any (fun c => c.email == em) = true
  · have hex : ¬ ∀ c ∈ db.contacts, c.email ≠ em := by
      rw [List.any_eq_true] at h
      obtain ⟨c, hc, he⟩ := h
      rw [beq_iff_eq] at he
      exact fun hall => hall c hc he
    refine ⟨?_, ?_, ?_, ?_⟩
    · simp [log_enhanced_contact, h, hex]
    · simp [log_enhanced_contact, h]
    · intro hr
      simp [log_enhanced_contact, h] at hr
    · intro _
      refine ⟨by simp [log_enhanced_contact, h], ?_⟩
      intro i c hc
      refine ⟨if c.email == em then
          { c with
              firstName := fn
              secondName := sn
              phone := ph
              lastInteraction := now }
        else c, ?_, ?_, ?_⟩
      · have hmap : (log_enhanced_contact fn sn em ph src now db).2.contacts =
            db.contacts.map (fun c =>
              if c.email == em then
                { c with
                    firstName := fn
                    secondName := sn
                    phone := ph
                    lastInteraction := now }
              else c) := by
          simp [log_enhanced_contact, h]
        rw [hmap, List.getElem?_map, hc]
        rfl
      · intro hne
        simp [beq_eq_false_iff_ne.mpr hne]
      · intro heq
        simp [heq]
  · have hall : ∀ c ∈ db.contacts, c.email ≠ em := by
      rw [Bool.not_eq_true, List.any_eq_false] at h
      intro c hc
      have hb := h c hc
      simpa [beq_iff_eq] using hb
    refine ⟨?_, ?_, ?_, ?_⟩
    · simp only [log_enhanced_contact, h]
      simp only [Bool.not_eq_true] at h
      rw [if_neg (by simp [h])]
      simpa using hall
    · simp only [log_enhanced_contact]
      rw [if_neg (by simp [h])]
      simp
    · intro _
      simp only [log_enhanced_contact]
      rw [if_neg (by simp [h])]
    · intro hr
      simp only [log_enhanced_contact] at hr
      rw [if_neg (by simp [h])] at hr
      cases hr

/-- A contact row already present in the witness database. -/
def contactW : ContactRow :=
  { firstName := "Jane", secondName := "Doe", email := "jane@example.com",
    phone := "123", source := "web_form", createdAt := 0,
    lastInteraction := 0, status := "active", notes := none }

/-- A database holding one contact. -/
def dbC : Database := { flightSearches := [], contacts := [contactW] }

/-- Witness for log_enhanced_contact_spec: inserting a fresh email
appends exactly the new row. -/
theorem log_enhanced_contact_spec_witness :
    (log_enhanced_contact "John" "Roe" "john@example.com" "789" "web_form"
        3 dbC).2.contacts =
      dbC.contacts ++
        [ContactRow.mk "John" "Roe" "john@example.com" "789" "web_form"
          3 3 "active" none] :=
  (log_enhanced_contact_spec "John" "Roe" "john@example.com" "789"
      "web_form" 3 dbC).2.2.1 (by rfl)

end AdminDashboard

namespace AdminDashboard

/-! ### get_admin_summary_stats (src/db_utils.py, lines 477-533) -/

/-- A value stored under one key of the stats dict. -/
inductive StatValue
  | natVal (n : Nat)
  | pairsVal (l : List (String × Nat))
  | ratVal (q : Rat)
deriving DecidableEq

/-- Which failures occur during a call of get_admin_summary_stats:
whether get_db_connection itself raises, and whether some query inside
the try block raises. -/
structure StatsEnv where
  connectFails : Bool
  queryFails : Bool
deriving DecidableEq

/-- The default dict assigned in the except branch of
get_admin_summary_stats, in source order. -/
def defaultAdminStats : List (String × StatValue) :=
  [("total_searches", StatValue.natVal 0),
   ("total_contacts", StatValue.natVal 0),
   ("searches_24h", StatValue.natVal 0),
   ("contacts_24h", StatValue.natVal 0),
   ("top_destinations", StatValue.pairsVal []),
   ("avg_trip_duration", StatValue.ratVal 0)]

/-- Stable insertion into a list of pairs ordered by count descending. -/
def insertPairByCountDesc (p : String × Nat) :
    List (String × Nat) → List (String × Nat)
  | [] => [p]
  | x :: xs =>
      if x.2 < p.2 then p :: x :: xs else x :: insertPairByCountDesc p xs

/-- ORDER BY count DESC over grouped destination counts. -/
def sortPairsByCountDesc (l : List (String × Nat)) : List (String × Nat) :=
  l.foldr insertPairByCountDesc []

/-- The top-destinations query of get_admin_summary_stats: group the
searches of the current month by destination, order by count descending,
limit 5. -/
def topDestinationsMonth (db : Database) (monthStart : Int) :
    List (String × Nat) :=
  let rows := db.flightSearches.filter fun r =>
    decide (monthStart ≤ r.createdAt)
  let dests := (rows.map fun r => r.destination).dedup
  (sortPairsByCountDesc (dests.map fun d =>
    (d, (rows.filter fun r => r.destination == d).length))).take 5

/-- The AVG duration query of get_admin_summary_stats over non-null
duration_days values; an empty aggregate (SQL NULL) is 0 here. -/
def avgTripDuration (db : Database) : Rat :=
  let ds := db.flightSearches.filterMap fun r => r.durationDays
  if ds.length = 0 then 0 else ((ds.sum : Int) : Rat) / (ds.length : Rat)

/-- Rounding to one decimal place, modelling round(x, 1). -/
def round1 (q : Rat) : Rat := ((round (q * 10) : Int) : Rat) / 10

/-- The stats dict built by the try block of get_admin_summary_stats
when no query fails, keys in source order. -/
def computeAdminStats (db : Database) (now monthStart : Int) :
    List (String × StatValue) :=
  [("total_searches", StatValue.natVal db.flightSearches.length),
   ("total_contacts", StatValue.natVal db.contacts.length),
   ("searches_24h", StatValue.natVal
      (db.flightSearches.filter fun r =>
        decide (now - 1 ≤ r.createdAt)).length),
   ("contacts_24h", StatValue.natVal
      (db.contacts.filter fun c => decide (now - 1 ≤ c.createdAt)).length),
   ("top_destinations",
    StatValue.pairsVal (topDestinationsMonth db monthStart)),
   ("avg_trip_duration", StatValue.ratVal
      (if avgTripDuration db = 0 then 0 else round1 (avgTripDuration db)))]

/-- Embeds get_admin_summary_stats: get_db_connection is called outside
the try block, so a connection failure propagates as an exception; any
query failure inside the try block is caught and the whole dict is
replaced by the zero/empty defaults. -/
def get_admin_summary_stats (env : StatsEnv) (db : Database)
    (now monthStart : Int) : Except Unit (List (String × StatValue)) :=
  if env.connectFails then Except.error ()
  else if env.queryFails then Except.ok defaultAdminStats
  else Except.ok (computeAdminStats db now monthStart)

end AdminDashboard

namespace AdminDashboard

/-- The claim formalized as stated: get_admin_summary_stats never raises,
whatever happens at run time. -/
def statsNeverRaisesClaim : Prop :=
  ∀ (env : StatsEnv) (db : Database) (now monthStart : Int),
    ∃ stats, get_admin_summary_stats env db now monthStart =
      Except.ok stats

/-- Claim C10 counterexample: when opening the connection fails, the
exception propagates out of get_admin_summary_stats, because
get_db_connection is called before the try block starts. -/
theorem statsNeverRaisesClaim_false : ¬ statsNeverRaisesClaim := fun h => by
  obtain ⟨stats, hs⟩ :=
    h (StatsEnv.mk true false) (Database.mk [] []) 0 0
  simp [get_admin_summary_stats] at hs

/-- Claim C10 amended: whenever the connection is opened successfully,
get_admin_summary_stats raises no exception and returns a dict with
exactly the six keys total_searches, total_contacts, searches_24h,
contacts_24h, top_destinations, avg_trip_duration in source order; if
any query fails, every key holds its zero/empty default. -/
theorem stats_keys_amended (env : StatsEnv) (db : Database)
    (now monthStart : Int) (h : env.connectFails = false) :
    ∃ stats,
      get_admin_summary_stats env db now monthStart = Except.ok stats ∧
      stats.map Prod.fst =
        ["total_searches", "total_contacts", "searches_24h",
         "contacts_24h", "top_destinations", "avg_trip_duration"] ∧
      (env.queryFails = true → stats = defaultAdminStats) := by
  rcases env with ⟨cf, qf⟩
  cases cf
  · cases qf
    · exact ⟨computeAdminStats db now monthStart, rfl, rfl,
        fun hq => Bool.noConfusion hq⟩
    · exact ⟨defaultAdminStats, rfl, rfl, fun _ => rfl⟩
  · exact Bool.noConfusion h

/-- Witness for stats_keys_amended: a successful connection with a
failing query yields the default dict with all six keys. -/
theorem stats_keys_amended_witness :
    ∃ stats,
      get_admin_summary_stats (StatsEnv.mk false true)
          (Database.mk [] []) 0 0 = Except.ok stats ∧
      stats.map Prod.fst =
        ["total_searches", "total_contacts", "searches_24h",
         "contacts_24h", "top_destinations", "avg_trip_duration"] ∧
      ((StatsEnv.mk false true).queryFails = true →
        stats = defaultAdminStats) :=
  stats_keys_amended (StatsEnv.mk false true) (Database.mk [] []) 0 0 rfl

end AdminDashboard
